import Mathlib

/-!
Verification of the real-time STT relay in `app.py` (`stt_proxy`, the
WebSocket handler at route `/ws/stt`, together with its background pump
`pipe_sr_to_client`).

The program is embedded shallowly:

* JSON values (`JVal`) model the results of Python's `json.loads` and the
  dictionaries passed to `json.dumps`; objects are association lists with
  the unique keys of the underlying Python dict.
* Python truthiness (`JVal.truthy`) and `int(...)` conversion (`pyInt`)
  are modelled explicitly, since the handshake relies on both.
* The client-to-upstream pump (`clientPump`), the upstream-to-client pump
  (`pipe_sr_to_client`) and the sequential part of the handler
  (`stt_proxy`) are functions over an environment (`Env`) supplying the
  inputs the code reads from the outside world: the credential, process
  defaults, the first client message, whether the upstream connect and
  sends succeed, and the subsequent trace of client messages.  A finite
  client trace ends with the closed-connection signal (receive returning
  None), matching the only way the receive loop terminates from the
  client side.
* Text messages carry the result of `json.loads` on them where the code
  parses them; binary payloads are byte lists and are never interpreted.
-/

namespace VoiceAssistant

/-- JSON values, as produced by `json.loads` and consumed by `json.dumps`.
Objects are association lists whose keys are the (unique) keys of the
Python dict object; numbers are modelled as integers (the protocol's
numeric field is an integer sample rate). -/
inductive JVal : Type
  | null : JVal
  | bool (b : Bool) : JVal
  | num (n : Int) : JVal
  | str (s : String) : JVal
  | arr (xs : List JVal) : JVal
  | obj (fields : List (String × JVal)) : JVal

/-- Python truthiness of a JSON value: `None`, `False`, `0`, `""`, `[]`
and an empty dict are falsy, everything else is truthy. -/
def JVal.truthy : JVal → Bool
  | JVal.null => false
  | JVal.bool b => b
  | JVal.num n => n != 0
  | JVal.str s => s != ""
  | JVal.arr xs => !xs.isEmpty
  | JVal.obj fs => !fs.isEmpty

/-- Accumulate decimal digits as Python's `int()` does, allowing single
underscores between digits (`1_0` is accepted, `1__0` and trailing or
leading underscores are not). -/
def digitsCore : Nat → List Char → Option Nat
  | acc, [] => some acc
  | acc, c :: cs =>
    if c.isDigit then digitsCore (acc * 10 + (c.toNat - 48)) cs
    else if c = '_' then
      match cs with
      | [] => none
      | d :: cs' =>
        if d.isDigit then digitsCore (acc * 10 + (d.toNat - 48)) cs' else none
    else none

/-- ASCII whitespace, stripped by Python's `int()` before parsing. -/
def isPySpace (c : Char) : Bool :=
  c = ' ' || c = '\t' || c = '\n' || c = '\r' || c = '\x0b' || c = '\x0c'

/-- Strip leading and trailing whitespace from a character list. -/
def stripChars (cs : List Char) : List Char :=
  ((cs.dropWhile isPySpace).reverse.dropWhile isPySpace).reverse

/-- Python `int(s)` on a string: strip surrounding whitespace, optional
sign, then decimal digits (with underscores between digits); `none` models
the `ValueError` raised on any other input (e.g. `int("abc")`). -/
def pyIntOfString (s : String) : Option Int :=
  match stripChars s.toList with
  | [] => none
  | '+' :: c :: cs =>
    if c.isDigit then (digitsCore (c.toNat - 48) cs).map Int.ofNat else none
  | '-' :: c :: cs =>
    if c.isDigit then (digitsCore (c.toNat - 48) cs).map (fun n => -(Int.ofNat n))
    else none
  | c :: cs =>
    if c.isDigit then (digitsCore (c.toNat - 48) cs).map Int.ofNat else none

/-- Python `int(v)` on a JSON value: integers pass through, booleans become
0 or 1, strings are parsed; `none` models the `TypeError`/`ValueError`
raised on `None`, lists and dicts (and unparsable strings). -/
def pyInt : JVal → Option Int
  | JVal.num n => some n
  | JVal.bool b => some (if b then 1 else 0)
  | JVal.str s => pyIntOfString s
  | _ => none

/-- Python `x or default` on an optional JSON value (`dict.get` returning
`None` when the key is absent): the value if present and truthy, else the
default. -/
def pyOrJ : Option JVal → JVal → JVal
  | some v, d => if v.truthy then v else d
  | none, d => d

/-- The negotiated session configuration (`language_hints`, `sample_rate_hz`,
`model` in `app.py` lines 206-208).  `language_hints` and `model` keep
whatever JSON value the client supplied (the code never inspects them). -/
structure SessionConfig : Type where
  language_hints : JVal
  sample_rate_hz : Int
  model : JVal

/-- `int(cfg_msg.get('sample_rate_hz') or 48000)` (`app.py` line 207):
48000 when the field is absent or falsy, otherwise Python `int` of the
value; `none` models the uncaught exception when the truthy value is not
convertible. -/
def negotiatedSampleRate (fs : List (String × JVal)) : Option Int :=
  match fs.lookup "sample_rate_hz" with
  | some v => if v.truthy then pyInt v else some 48000
  | none => some 48000

/-- Lines 206-208 of `app.py`: merge the parsed client configuration with
the process defaults.  `none` models an uncaught exception: either
`cfg_msg` is not a dict (`.get` raises `AttributeError` at line 206) or
the truthy `sample_rate_hz` value is not `int`-convertible (line 207). -/
def negotiate (defHints : List String) (defModel : String) : JVal → Option SessionConfig
  | JVal.obj fs =>
    match negotiatedSampleRate fs with
    | none => none
    | some sr =>
      some { language_hints := pyOrJ (fs.lookup "language_hints") (JVal.arr (defHints.map JVal.str))
             sample_rate_hz := sr
             model := pyOrJ (fs.lookup "model") (JVal.str defModel) }
  | _ => none

/-- A message sent on the upstream (Soniox) connection: `json j` models
`ws_sr.send(json.dumps(j))`, `audio bs` models `ws_sr.send_binary(frame)`
with `bs` the frame's bytes. -/
inductive UpSend : Type
  | json (j : JVal) : UpSend
  | audio (bs : List Nat) : UpSend

/-- The end-of-stream control message `json.dumps({"eos": True})`
(`app.py` line 274), at JSON-value granularity. -/
def eosJson : JVal := JVal.obj [("eos", JVal.bool true)]

/-- The Soniox configuration message built at `app.py` lines 219-226,
field for field and in the source's order. -/
def sonioxConfig (apiKey : String) (c : SessionConfig) : JVal :=
  JVal.obj
    [("api_key", JVal.str apiKey),
     ("model", c.model),
     ("audio_format", JVal.str "pcm_s16le"),
     ("sample_rate_hz", JVal.num c.sample_rate_hz),
     ("language_hints", c.language_hints),
     ("interim_results", JVal.bool true)]

/-- A structured error event `{"type": "error", "message": msg}` as built
by every `ws_client.send(json.dumps({...}))` error path of the handler. -/
def errEvent (msg : String) : JVal :=
  JVal.obj [("type", JVal.str "error"), ("message", JVal.str msg)]

/-- A client message delivered to the receive loop (`app.py` line 260):
either a binary audio frame, or a text message paired with the result of
`json.loads` on it (the exception text on parse failure).  The end of the
trace models `receive()` returning `None` (closed connection). -/
inductive ClientMsg : Type
  | bin (bs : List Nat) : ClientMsg
  | txt (parse : Except String JVal) : ClientMsg

/-- Whether a text client message triggers the end-of-stream branch
(`app.py` lines 271-272): it parses as a JSON dict whose `eos` entry is
truthy.  A parse failure, a non-dict value (`.get` raises, caught by the
`except` at line 278) or a falsy `eos` all fall through and the loop
continues. -/
def isEosTxt : Except String JVal → Bool
  | Except.ok (JVal.obj fs) =>
    match fs.lookup "eos" with
    | some v => v.truthy
    | none => false
  | _ => false

/-- The client-to-upstream receive loop (`app.py` lines 259-279) as a
function of the remaining client messages, the number of binary sends so
far (`k`, indexing the send-success oracle `ok`), and whether the
best-effort end-of-stream send succeeds.  Returns the upstream sends the
loop performs, in order.  A failed `send_binary` (caught at line 266-267)
forwards nothing and breaks; a failed end-of-stream send is ignored
(lines 275-276) but the loop still breaks; end of the list models
`receive()` returning `None` (line 261-262). -/
def clientPump : List ClientMsg → Nat → (Nat → Bool) → Bool → List UpSend
  | [], _, _, _ => []
  | ClientMsg.bin bs :: rest, k, ok, eosOk =>
    if ok k then UpSend.audio bs :: clientPump rest (k + 1) ok eosOk else []
  | ClientMsg.txt p :: rest, k, ok, eosOk =>
    if isEosTxt p then (if eosOk then [UpSend.json eosJson] else [])
    else clientPump rest k ok eosOk

/-- The frame sequence the specification says must be forwarded, written
from the claim's words: every binary frame received before an
end-of-stream signal (and before a closed-connection signal, i.e. the end
of the trace, or a failed upstream send), in receipt order.  This is the
comparator for the refinement claim about `clientPump`. -/
def specForwardedFrames : List ClientMsg → Nat → (Nat → Bool) → List (List Nat)
  | [], _, _ => []
  | ClientMsg.bin bs :: rest, k, ok =>
    if ok k then bs :: specForwardedFrames rest (k + 1) ok else []
  | ClientMsg.txt p :: rest, k, ok =>
    if isEosTxt p then [] else specForwardedFrames rest k ok

/-- The audio payload of an upstream send, if it is one. -/
def audioOf : UpSend → Option (List Nat)
  | UpSend.audio bs => some bs
  | _ => none

/-- Whether an upstream send is a binary audio send. -/
def isAudioSend : UpSend → Bool
  | UpSend.audio _ => true
  | _ => false

/-- Whether an upstream send is the end-of-stream control message
`{"eos": true}`. -/
def isEosCtl : UpSend → Bool
  | UpSend.json (JVal.obj [(k, JVal.bool true)]) => k == "eos"
  | _ => false

/-- Every end-of-stream control message in the list is its last element. -/
def eosCtlLast : List UpSend → Bool
  | [] => true
  | u :: rest => (!isEosCtl u || rest.isEmpty) && eosCtlLast rest

/-- Whether a client message is a textual end-of-stream signal (a text
message that parses as a JSON dict with a truthy `eos` entry). -/
def isEosMsg : ClientMsg → Bool
  | ClientMsg.bin _ => false
  | ClientMsg.txt p => isEosTxt p

/-- A message received from the upstream service by the background pump
(`ws_sr.recv()` at `app.py` line 242): text or binary.  The end of the
trace models `recv` returning `None` or raising (both end the pump). -/
inductive SrMsg : Type
  | txt (s : String) : SrMsg
  | bin (bs : List Nat) : SrMsg

/-- The text payload of an upstream-received message, if it is text. -/
def srText : SrMsg → Option String
  | SrMsg.txt s => some s
  | SrMsg.bin _ => none

/-- The upstream-to-client pump `pipe_sr_to_client` (`app.py` lines
239-252) as a function of the messages received from upstream, the number
of client sends so far (indexing the client-send success oracle `ok`),
returning the text messages forwarded to the client in order.  Binary
messages are skipped (lines 246-248); a failed client send raises into
the outer `except` (lines 250-252) and ends the pump, forwarding
nothing further. -/
def pipe_sr_to_client : List SrMsg → Nat → (Nat → Bool) → List String
  | [], _, _ => []
  | SrMsg.bin _ :: rest, k, ok => pipe_sr_to_client rest k ok
  | SrMsg.txt s :: rest, k, ok =>
    if ok k then s :: pipe_sr_to_client rest (k + 1) ok else []

/-- The first client message as observed by the handshake (`app.py` lines
195-204): a binary frame, a text message (with its `json.loads` result),
the closed-connection signal (`receive()` returning `None`), or
`receive()` itself raising (caught by the `except` at line 202, with the
exception's text). -/
inductive FirstMsg : Type
  | bin (bs : List Nat) : FirstMsg
  | txt (s : String) (parse : Except String JVal) : FirstMsg
  | closed : FirstMsg
  | recvRaise (e : String) : FirstMsg

/-- A step of the `finally` block at `app.py` lines 280-285: setting the
shared stop flag, and the attempt to close the upstream connection
(`closeUp ok` records whether `ws_sr.close()` succeeded; its exception is
swallowed by the inner `except` at lines 284-285 either way). -/
inductive ShutStep : Type
  | setStop : ShutStep
  | closeUp (ok : Bool) : ShutStep

/-- Everything the handler reads from the outside world: module
configuration, the first client message, whether the upstream connect and
the two kinds of upstream sends succeed, the subsequent client messages,
and whether the final `ws_sr.close()` succeeds. -/
structure Env : Type where
  apiKey : String
  defHints : List String
  defModel : String
  first : FirstMsg
  connectOk : Bool
  connectErr : String
  cfgSendOk : Bool
  cfgSendErr : String
  clientMsgs : List ClientMsg
  audioOk : Nat → Bool
  eosOk : Bool
  closeOk : Bool

/-- The observable outcome of one run of the handler: the structured
events it sent to the client (the background pump's forwards are
`pipe_sr_to_client`, modelled separately), the upstream sends in order,
whether `websocket.create_connection` was reached, whether the session
became established (reached the receive loop at line 258), whether the
handler raised an uncaught exception, the negotiated configuration, and
the shutdown steps performed. -/
structure Outcome : Type where
  clientSends : List JVal
  upSends : List UpSend
  connectAttempted : Bool
  established : Bool
  raised : Bool
  config : Option SessionConfig
  shutdown : List ShutStep

/-- Outcome of the missing-credential path (`app.py` lines 190-192). -/
def outMissingKey : Outcome :=
  ⟨[errEvent "Missing SONIOX_API_KEY"], [], false, false, false, none, []⟩

/-- Outcome of the binary-first-message path (lines 197-200; the source's
error text is "Expected JSON config first"). -/
def outCfgFirst : Outcome :=
  ⟨[errEvent "Expected JSON config first"], [], false, false, false, none, []⟩

/-- Outcome of the handshake `except` path (lines 202-204). -/
def outInvalidCfg (e : String) : Outcome :=
  ⟨[errEvent ("Invalid config: " ++ e)], [], false, false, false, none, []⟩

/-- Outcome of an uncaught exception at lines 206-208: nothing was sent,
no upstream connection was attempted. -/
def outRaised : Outcome :=
  ⟨[], [], false, false, true, none, []⟩

/-- Outcome of the connect-failure path (lines 212-216). -/
def outConnectFail (env : Env) (c : SessionConfig) : Outcome :=
  ⟨[errEvent ("Failed to connect Soniox: " ++ env.connectErr)], [], true, false, false,
    some c, []⟩

/-- Outcome of the configuration-send-failure path (lines 227-235): error
to the client, close the partially-opened upstream connection, return. -/
def outCfgSendFail (env : Env) (c : SessionConfig) : Outcome :=
  ⟨[errEvent ("Failed to send config to Soniox: " ++ env.cfgSendErr)], [], true, false,
    false, some c, [ShutStep.closeUp env.closeOk]⟩

/-- Outcome of an established session: the configuration message followed
by the receive loop's sends; the `finally` block (lines 280-285) sets the
stop flag then closes the upstream connection. -/
def outEstablished (env : Env) (c : SessionConfig) : Outcome :=
  ⟨[],
    UpSend.json (sonioxConfig env.apiKey c)
      :: clientPump env.clientMsgs 0 env.audioOk env.eosOk,
    true, true, false, some c,
    [ShutStep.setStop, ShutStep.closeUp env.closeOk]⟩

/-- The handler from the point where the parsed configuration `j` is in
hand (`app.py` lines 206-285): negotiate, connect, send the Soniox
configuration, then run the receive loop with its `finally` block. -/
def runSession (env : Env) (j : JVal) : Outcome :=
  match negotiate env.defHints env.defModel j with
  | none => outRaised
  | some c =>
    if env.connectOk then
      if env.cfgSendOk then outEstablished env c else outCfgSendFail env c
    else outConnectFail env c

/-- The WebSocket handler `stt_proxy` (`app.py` lines 181-285).  The
guard `json.loads(raw_first or '{}')` (line 201) turns both the
closed-connection signal and an empty text message into the empty
configuration object. -/
def stt_proxy (env : Env) : Outcome :=
  if env.apiKey = "" then outMissingKey
  else
    match env.first with
    | FirstMsg.bin _ => outCfgFirst
    | FirstMsg.recvRaise e => outInvalidCfg e
    | FirstMsg.closed => runSession env (JVal.obj [])
    | FirstMsg.txt s p =>
      if s = "" then runSession env (JVal.obj [])
      else
        match p with
        | Except.error e => outInvalidCfg e
        | Except.ok j => runSession env j

/-- A concrete environment whose session becomes established: valid
credential, closed-first-receive handshake (empty configuration), all
upstream operations succeeding, one audio frame then an end-of-stream
message from the client. -/
def envEstablished : Env :=
  ⟨"key", ["en", "fr", "nl"], "soniox-rt", FirstMsg.closed, true, "", true, "",
    [ClientMsg.bin [1, 2, 3],
     ClientMsg.txt (Except.ok (JVal.obj [("eos", JVal.bool true)]))],
    fun _ => true, true, true⟩

/-- A concrete environment whose first client message is binary. -/
def envBinFirst : Env :=
  ⟨"key", ["en"], "m", FirstMsg.bin [7], true, "", true, "", [], fun _ => true,
    true, true⟩

/-- A concrete environment with no configured credential. -/
def envNoKey : Env :=
  ⟨"", ["en"], "m", FirstMsg.closed, true, "", true, "", [], fun _ => true,
    true, true⟩

/-- A concrete established environment whose best-effort end-of-stream
send fails (`eosOk = false`) and whose client trace carries a further
binary frame after the end-of-stream signal: the pump must forward no
audio after processing the signal even though no end-of-stream control
message reaches the upstream connection. -/
def envEosFail : Env :=
  ⟨"key", ["en"], "m", FirstMsg.closed, true, "", true, "",
    [ClientMsg.bin [1, 2],
     ClientMsg.txt (Except.ok (JVal.obj [("eos", JVal.bool true)])),
     ClientMsg.bin [9]],
    fun _ => true, false, true⟩

/-- A concrete environment whose first message is valid JSON but carries a
truthy, non-integer-convertible `sample_rate_hz`. -/
def envBadRate : Env :=
  ⟨"key", ["en"], "m",
    FirstMsg.txt "cfg" (Except.ok (JVal.obj [("sample_rate_hz", JVal.str "abc")])),
    true, "", true, "", [], fun _ => true, true, true⟩

/-- The end-of-stream control message is recognised as such. -/
theorem isEosCtl_eosJson : isEosCtl (UpSend.json eosJson) = true := rfl

/-- The Soniox configuration message is never the end-of-stream control
message (it has six fields, not one). -/
theorem isEosCtl_sonioxConfig (apiKey : String) (c : SessionConfig) :
    isEosCtl (UpSend.json (sonioxConfig apiKey c)) = false := rfl

/-- The audio sends of the client-to-upstream loop are exactly the frame
sequence described by the specification. -/
theorem clientPump_audio (msgs : List ClientMsg) (k : Nat) (ok : Nat → Bool)
    (eosOk : Bool) :
    (clientPump msgs k ok eosOk).filterMap audioOf = specForwardedFrames msgs k ok := by
  induction msgs generalizing k with
  | nil => rfl
  | cons m rest ih =>
    cases m with
    | bin bs =>
      by_cases h : ok k
      · simp [clientPump, specForwardedFrames, h, audioOf, ih]
      · simp [clientPump, specForwardedFrames, h]
    | txt p =>
      by_cases h : isEosTxt p
      · by_cases he : eosOk <;>
          simp [clientPump, specForwardedFrames, h, he, audioOf]
      · simp [clientPump, specForwardedFrames, h, ih]

/-- `specForwardedFrames` draws frames only from the prefix of the trace
strictly before the first end-of-stream signal: truncating the trace
there does not change the forwarded frame sequence. -/
theorem specForwardedFrames_takeWhile (msgs : List ClientMsg) (k : Nat)
    (ok : Nat → Bool) :
    specForwardedFrames (msgs.takeWhile (fun m => !isEosMsg m)) k ok
      = specForwardedFrames msgs k ok := by
  induction msgs generalizing k with
  | nil => rfl
  | cons m rest ih =>
    cases m with
    | bin bs =>
      have h1 : (!isEosMsg (ClientMsg.bin bs)) = true := rfl
      by_cases hk : ok k <;>
        simp [List.takeWhile_cons, h1, specForwardedFrames, hk, ih]
    | txt p =>
      have h2 : (!isEosMsg (ClientMsg.txt p)) = !isEosTxt p := rfl
      by_cases h : isEosTxt p <;>
        simp [List.takeWhile_cons, h2, specForwardedFrames, h, ih]

/-- The client-to-upstream loop sends the end-of-stream control message at
most once. -/
theorem clientPump_eos_count (msgs : List ClientMsg) (k : Nat) (ok : Nat → Bool)
    (eosOk : Bool) :
    (clientPump msgs k ok eosOk).countP isEosCtl ≤ 1 := by
  induction msgs generalizing k with
  | nil => simp [clientPump]
  | cons m rest ih =>
    cases m with
    | bin bs =>
      by_cases h : ok k
      · simpa [clientPump, h, List.countP_cons, isEosCtl] using ih (k + 1)
      · simp [clientPump, h]
    | txt p =>
      by_cases h : isEosTxt p
      · by_cases he : eosOk <;>
          simp [clientPump, h, he, List.countP_cons, isEosCtl_eosJson]
      · simpa [clientPump, h] using ih k

/-- Any end-of-stream control message the client-to-upstream loop sends is
its last upstream send. -/
theorem clientPump_eosCtlLast (msgs : List ClientMsg) (k : Nat) (ok : Nat → Bool)
    (eosOk : Bool) :
    eosCtlLast (clientPump msgs k ok eosOk) = true := by
  induction msgs generalizing k with
  | nil => rfl
  | cons m rest ih =>
    cases m with
    | bin bs =>
      by_cases h : ok k
      · simpa [clientPump, h, eosCtlLast, isEosCtl] using ih (k + 1)
      · simp [clientPump, h, eosCtlLast]
    | txt p =>
      by_cases h : isEosTxt p
      · by_cases he : eosOk <;> simp [clientPump, h, he, eosCtlLast]
      · simpa [clientPump, h] using ih k

/-- When every client send succeeds, the upstream-to-client pump forwards
exactly the text messages, in order. -/
theorem pipe_all_ok (msgs : List SrMsg) (k : Nat) (ok : Nat → Bool)
    (h : ∀ i, ok i = true) :
    pipe_sr_to_client msgs k ok = msgs.filterMap srText := by
  induction msgs generalizing k with
  | nil => rfl
  | cons m rest ih =>
    cases m with
    | txt s => simp [pipe_sr_to_client, srText, h k, ih]
    | bin bs => simp [pipe_sr_to_client, srText, ih]

/-- Whatever the client-send outcomes, the upstream-to-client pump forwards
an initial segment of the text messages, in order — never a binary one. -/
theorem pipe_take (msgs : List SrMsg) (k : Nat) (ok : Nat → Bool) :
    ∃ n, pipe_sr_to_client msgs k ok = (msgs.filterMap srText).take n := by
  induction msgs generalizing k with
  | nil => exact ⟨0, rfl⟩
  | cons m rest ih =>
    cases m with
    | bin bs =>
      obtain ⟨n, hn⟩ := ih k
      exact ⟨n, by simpa [pipe_sr_to_client, srText] using hn⟩
    | txt s =>
      by_cases h : ok k
      · obtain ⟨n, hn⟩ := ih (k + 1)
        refine ⟨n + 1, ?_⟩
        simp [pipe_sr_to_client, h, srText, hn]
      · exact ⟨0, by simp [pipe_sr_to_client, h]⟩

/-- An established `runSession` run is the established outcome for the
configuration it negotiated. -/
theorem runSession_established (env : Env) (j : JVal)
    (h : (runSession env j).established = true) :
    ∃ c, negotiate env.defHints env.defModel j = some c ∧
      runSession env j = outEstablished env c := by
  rcases hn : negotiate env.defHints env.defModel j with _ | c
  · simp only [runSession, hn] at h
    simp [outRaised] at h
  · simp only [runSession, hn] at h ⊢
    by_cases hco : env.connectOk
    · by_cases hcs : env.cfgSendOk
      · exact ⟨c, rfl, by rw [if_pos hco, if_pos hcs]⟩
      · rw [if_pos hco, if_neg hcs] at h
        simp [outCfgSendFail] at h
    · rw [if_neg hco] at h
      simp [outConnectFail] at h

/-- Every run of the handler is one of: the missing-credential outcome,
the binary-first-message outcome, a handshake-failure outcome, or a
`runSession` run on some parsed configuration. -/
theorem stt_proxy_cases (env : Env) :
    stt_proxy env = outMissingKey ∨ stt_proxy env = outCfgFirst ∨
    (∃ e, stt_proxy env = outInvalidCfg e) ∨
    (∃ j, stt_proxy env = runSession env j) := by
  unfold stt_proxy
  by_cases hk : env.apiKey = ""
  · exact Or.inl (by rw [if_pos hk])
  · rw [if_neg hk]
    cases hf : env.first with
    | bin bs => exact Or.inr (Or.inl rfl)
    | txt s p =>
      by_cases hs : s = ""
      · exact Or.inr (Or.inr (Or.inr ⟨JVal.obj [], by simp [hs]⟩))
      · cases p with
        | error e => exact Or.inr (Or.inr (Or.inl ⟨e, by simp [hs]⟩))
        | ok j => exact Or.inr (Or.inr (Or.inr ⟨j, by simp [hs]⟩))
    | closed => exact Or.inr (Or.inr (Or.inr ⟨JVal.obj [], rfl⟩))
    | recvRaise e => exact Or.inr (Or.inr (Or.inl ⟨e, rfl⟩))

/-- An established handler run is the established outcome for some
negotiated configuration. -/
theorem stt_proxy_established (env : Env)
    (h : (stt_proxy env).established = true) :
    ∃ c, stt_proxy env = outEstablished env c := by
  rcases stt_proxy_cases env with h1 | h1 | ⟨e, h1⟩ | ⟨j, h1⟩
  · rw [h1] at h
    simp [outMissingKey] at h
  · rw [h1] at h
    simp [outCfgFirst] at h
  · rw [h1] at h
    simp [outInvalidCfg] at h
  · rw [h1] at h ⊢
    obtain ⟨c, -, hc⟩ := runSession_established env j h
    exact ⟨c, hc⟩

/-- Claim C1: in an established session, every binary audio frame received
from the client before an end-of-stream signal (and before the
closed-connection signal — the end of the trace — or a failed upstream
send) is forwarded upstream via `send_binary` exactly once, byte-for-byte
unmodified and in receipt order, with no frame duplicated or dropped: the
audio sends of the whole session equal the frame sequence described by the
specification (`specForwardedFrames`). -/
theorem audio_frames_forwarded_in_order (env : Env)
    (h : (stt_proxy env).established = true) :
    (stt_proxy env).upSends.filterMap audioOf
      = specForwardedFrames env.clientMsgs 0 env.audioOk := by
  obtain ⟨c, hc⟩ := stt_proxy_established env h
  rw [hc]
  simp only [outEstablished, List.filterMap_cons, audioOf]
  exact clientPump_audio env.clientMsgs 0 env.audioOk env.eosOk

/-- Witness for C1 at a concrete established session with one audio frame
followed by an end-of-stream message. -/
theorem audio_frames_forwarded_in_order_witness :
    (stt_proxy envEstablished).upSends.filterMap audioOf
      = specForwardedFrames envEstablished.clientMsgs 0 envEstablished.audioOk :=
  audio_frames_forwarded_in_order envEstablished rfl

/-- Claim C2: the upstream-to-client pump forwards every textual message
received from the upstream service to the client verbatim and in receipt
order (when its client sends succeed), and — whatever the send outcomes —
what it forwards is an initial segment of exactly the textual messages, so
no binary message received from upstream is ever forwarded (binary
messages are silently skipped and the pump continues). -/
theorem upstream_text_forwarded_verbatim (msgs : List SrMsg) (ok : Nat → Bool) :
    ((∀ i, ok i = true) → pipe_sr_to_client msgs 0 ok = msgs.filterMap srText) ∧
    (∃ n, pipe_sr_to_client msgs 0 ok = (msgs.filterMap srText).take n) :=
  ⟨fun h => pipe_all_ok msgs 0 ok h, pipe_take msgs 0 ok⟩

/-- Witness for C2: a concrete upstream trace with a binary message in the
middle is forwarded as exactly its two text messages, in order. -/
theorem upstream_text_forwarded_verbatim_witness :
    pipe_sr_to_client [SrMsg.txt "a", SrMsg.bin [0], SrMsg.txt "b"] 0
      (fun _ => true) = ["a", "b"] :=
  ((upstream_text_forwarded_verbatim [SrMsg.txt "a", SrMsg.bin [0], SrMsg.txt "b"]
      (fun _ => true)).1 (fun _ => rfl)).trans rfl

/-- Claim C3: for every terminating execution of an established session's
client-to-upstream pump — whichever path ended the receive loop — the
`finally` block runs the shutdown sequence: the shared stop flag is set to
true and then the upstream connection is closed; a failure of the close is
swallowed (the conclusion holds for both values of `env.closeOk`, and the
handler does not raise). -/
theorem shutdown_always_runs (env : Env)
    (h : (stt_proxy env).established = true) :
    (stt_proxy env).shutdown = [ShutStep.setStop, ShutStep.closeUp env.closeOk] ∧
    (stt_proxy env).raised = false := by
  obtain ⟨c, hc⟩ := stt_proxy_established env h
  rw [hc]
  exact ⟨rfl, rfl⟩

/-- Witness for C3 at a concrete established session. -/
theorem shutdown_always_runs_witness :
    (stt_proxy envEstablished).shutdown
      = [ShutStep.setStop, ShutStep.closeUp true] ∧
    (stt_proxy envEstablished).raised = false :=
  shutdown_always_runs envEstablished rfl

/-- Claim C4: in an established session, after the client-to-upstream
pump processes a textual message that parses as JSON with a truthy `eos`
field, no further audio frames are forwarded upstream in that session:
the session's forwarded audio equals the spec-derived frame sequence of
the trace's prefix strictly before the first end-of-stream signal — for
both outcomes of the best-effort end-of-stream send (`env.eosOk`
universally quantified).  Moreover the end-of-stream control message
`{"eos": true}` is sent upstream at most once, and any such send is the
session's last upstream send. -/
theorem eos_sent_at_most_once_and_last (env : Env)
    (h : (stt_proxy env).established = true) :
    (stt_proxy env).upSends.countP isEosCtl ≤ 1 ∧
    eosCtlLast (stt_proxy env).upSends = true ∧
    (stt_proxy env).upSends.filterMap audioOf
      = specForwardedFrames (env.clientMsgs.takeWhile (fun m => !isEosMsg m)) 0
          env.audioOk := by
  obtain ⟨c, hc⟩ := stt_proxy_established env h
  rw [hc]
  refine ⟨?_, ?_, ?_⟩
  · simp only [outEstablished, List.countP_cons, isEosCtl_sonioxConfig]
    simpa using clientPump_eos_count env.clientMsgs 0 env.audioOk env.eosOk
  · simp only [outEstablished, eosCtlLast, isEosCtl_sonioxConfig]
    simp [clientPump_eosCtlLast env.clientMsgs 0 env.audioOk env.eosOk]
  · simp only [outEstablished, List.filterMap_cons, audioOf]
    rw [specForwardedFrames_takeWhile]
    exact clientPump_audio env.clientMsgs 0 env.audioOk env.eosOk

/-- Witness for C4 at a concrete established session whose end-of-stream
send fails and whose trace carries a binary frame after the end-of-stream
signal: still no audio is forwarded after the signal is processed. -/
theorem eos_sent_at_most_once_and_last_witness :
    (stt_proxy envEosFail).upSends.countP isEosCtl ≤ 1 ∧
    eosCtlLast (stt_proxy envEosFail).upSends = true ∧
    (stt_proxy envEosFail).upSends.filterMap audioOf
      = specForwardedFrames
          (envEosFail.clientMsgs.takeWhile (fun m => !isEosMsg m)) 0
          envEosFail.audioOk :=
  eos_sent_at_most_once_and_last envEosFail rfl

/-- Claim C5: when a credential is configured and the first client message
is binary, exactly one structured error event ("Expected JSON config
first") is sent to the client, no upstream connection is ever opened, and
the handler returns without establishing a session or negotiating a
configuration. -/
theorem binary_first_message_rejected (env : Env) (bs : List Nat)
    (hk : env.apiKey ≠ "") (hf : env.first = FirstMsg.bin bs) :
    (stt_proxy env).clientSends = [errEvent "Expected JSON config first"] ∧
    (stt_proxy env).connectAttempted = false ∧
    (stt_proxy env).upSends = [] ∧
    (stt_proxy env).established = false ∧
    (stt_proxy env).config = none := by
  unfold stt_proxy
  rw [if_neg hk, hf]
  exact ⟨rfl, rfl, rfl, rfl, rfl⟩

/-- Witness for C5 at a concrete environment whose first message is a
binary frame. -/
theorem binary_first_message_rejected_witness :
    (stt_proxy envBinFirst).clientSends
      = [errEvent "Expected JSON config first"] ∧
    (stt_proxy envBinFirst).connectAttempted = false ∧
    (stt_proxy envBinFirst).upSends = [] ∧
    (stt_proxy envBinFirst).established = false ∧
    (stt_proxy envBinFirst).config = none :=
  binary_first_message_rejected envBinFirst [7] (by decide) rfl

/-- Claim C6: with no configured credential the client receives exactly
one error message `{"type": "error", "message": "Missing SONIOX_API_KEY"}`,
the handler returns immediately, and no upstream connection is
attempted. -/
theorem missing_api_key_single_error (env : Env) (hk : env.apiKey = "") :
    (stt_proxy env).clientSends = [errEvent "Missing SONIOX_API_KEY"] ∧
    (stt_proxy env).connectAttempted = false ∧
    (stt_proxy env).upSends = [] ∧
    (stt_proxy env).established = false := by
  unfold stt_proxy
  rw [if_pos hk]
  exact ⟨rfl, rfl, rfl, rfl⟩

/-- Witness for C6 at a concrete environment with an empty credential. -/
theorem missing_api_key_single_error_witness :
    (stt_proxy envNoKey).clientSends = [errEvent "Missing SONIOX_API_KEY"] ∧
    (stt_proxy envNoKey).connectAttempted = false ∧
    (stt_proxy envNoKey).upSends = [] ∧
    (stt_proxy envNoKey).established = false :=
  missing_api_key_single_error envNoKey rfl

/-- Counterexample to claim C7 as stated: a client-supplied
`sample_rate_hz` of -1 is non-positive, so the claim requires the
negotiated value to be 48000; the code keeps -1, because -1 is truthy in
Python and `int(-1)` is -1. -/
theorem sample_rate_negative_counterexample :
    negotiatedSampleRate [("sample_rate_hz", JVal.num (-1))] = some (-1) ∧
    negotiatedSampleRate [("sample_rate_hz", JVal.num (-1))] ≠ some 48000 := by
  constructor
  · rfl
  · intro h
    exact absurd (Option.some.inj (h : some (-1 : Int) = some 48000)) (by decide)

/-- Claim C7 as amended: for an integer-valued `sample_rate_hz` field the
negotiated value equals the client-supplied value whenever it is nonzero
(including negative values), and equals 48000 when the field is absent or
zero. -/
theorem sample_rate_negotiation_amended (fs : List (String × JVal)) (n : Int) :
    (fs.lookup "sample_rate_hz" = some (JVal.num n) →
      negotiatedSampleRate fs = some (if n = 0 then 48000 else n)) ∧
    (fs.lookup "sample_rate_hz" = none → negotiatedSampleRate fs = some 48000) := by
  constructor
  · intro hl
    by_cases hz : n = 0
    · subst hz
      simp [negotiatedSampleRate, hl, JVal.truthy]
    · simp [negotiatedSampleRate, hl, JVal.truthy, hz, pyInt]
  · intro hl
    simp [negotiatedSampleRate, hl]

/-- Witness for the amended C7: a supplied 16000 is kept, an absent field
defaults to 48000. -/
theorem sample_rate_negotiation_amended_witness :
    negotiatedSampleRate [("sample_rate_hz", JVal.num 16000)]
      = some (if (16000 : Int) = 0 then 48000 else 16000) ∧
    negotiatedSampleRate [] = some 48000 :=
  ⟨(sample_rate_negotiation_amended [("sample_rate_hz", JVal.num 16000)] 16000).1 rfl,
    (sample_rate_negotiation_amended [] 0).2 rfl⟩

/-- Claim C8: once a configuration is negotiated and the upstream connect
succeeds, the first message sent on the upstream connection is the single
JSON configuration message with exactly the fields `api_key`, `model`,
`audio_format` fixed to "pcm_s16le", `sample_rate_hz`, `language_hints`
and `interim_results` set to true (`sonioxConfig`); and if sending it
fails, a structured error is sent to the client and the partially-opened
upstream connection is closed before the handler returns. -/
theorem soniox_config_first_upstream_message (env : Env) (c : SessionConfig)
    (hc : (stt_proxy env).config = some c) (hco : env.connectOk = true) :
    (env.cfgSendOk = true →
      (stt_proxy env).upSends.head?
        = some (UpSend.json (sonioxConfig env.apiKey c))) ∧
    (env.cfgSendOk = false →
      (stt_proxy env).clientSends
          = [errEvent ("Failed to send config to Soniox: " ++ env.cfgSendErr)] ∧
      (stt_proxy env).upSends = [] ∧
      (stt_proxy env).shutdown = [ShutStep.closeUp env.closeOk] ∧
      (stt_proxy env).established = false) := by
  rcases stt_proxy_cases env with h1 | h1 | ⟨e, h1⟩ | ⟨j, h1⟩
  · rw [h1] at hc
    simp [outMissingKey] at hc
  · rw [h1] at hc
    simp [outCfgFirst] at hc
  · rw [h1] at hc
    simp [outInvalidCfg] at hc
  · rw [h1] at hc ⊢
    rcases hn : negotiate env.defHints env.defModel j with _ | c'
    · simp only [runSession, hn] at hc
      simp [outRaised] at hc
    · simp only [runSession, hn] at hc ⊢
      rw [if_pos hco] at hc ⊢
      have hcc : c' = c := by
        by_cases hcs : env.cfgSendOk
        · rw [if_pos hcs] at hc
          simpa [outEstablished] using hc
        · rw [if_neg hcs] at hc
          simpa [outCfgSendFail] using hc
      subst hcc
      constructor
      · intro hcs
        rw [if_pos hcs]
        rfl
      · intro hcs
        rw [if_neg (by simp [hcs])]
        exact ⟨rfl, rfl, rfl, rfl⟩

/-- Witness for C8 at a concrete established session: the first upstream
send is the full Soniox configuration message built from the defaults. -/
theorem soniox_config_first_upstream_message_witness :
    (stt_proxy envEstablished).upSends.head?
      = some (UpSend.json (sonioxConfig "key"
          ⟨JVal.arr [JVal.str "en", JVal.str "fr", JVal.str "nl"], 48000,
            JVal.str "soniox-rt"⟩)) :=
  (soniox_config_first_upstream_message envEstablished
      ⟨JVal.arr [JVal.str "en", JVal.str "fr", JVal.str "nl"], 48000,
        JVal.str "soniox-rt"⟩ rfl rfl).1 rfl

/-- Claim C9: if the first client message is valid JSON — a dict whose
`sample_rate_hz` entry is truthy but not `int`-convertible (for example
the string "abc") — the handler raises an uncaught exception after the
handshake try-block: no structured error event is sent to the client and
no upstream connection is opened. -/
theorem bad_sample_rate_raises (env : Env) (s : String)
    (fs : List (String × JVal)) (v : JVal)
    (hk : env.apiKey ≠ "")
    (hf : env.first = FirstMsg.txt s (Except.ok (JVal.obj fs)))
    (hs : s ≠ "") (hv : fs.lookup "sample_rate_hz" = some v)
    (hvt : v.truthy = true) (hvi : pyInt v = none) :
    (stt_proxy env).raised = true ∧
    (stt_proxy env).clientSends = [] ∧
    (stt_proxy env).connectAttempted = false ∧
    (stt_proxy env).upSends = [] := by
  have hneg : negotiate env.defHints env.defModel (JVal.obj fs) = none := by
    simp [negotiate, negotiatedSampleRate, hv, hvt, hvi]
  have hred : stt_proxy env = outRaised := by
    simp [stt_proxy, hk, hf, hs, runSession, hneg]
  rw [hred]
  exact ⟨rfl, rfl, rfl, rfl⟩

/-- Witness for C9 with `sample_rate_hz` equal to the string "abc". -/
theorem bad_sample_rate_raises_witness :
    (stt_proxy envBadRate).raised = true ∧
    (stt_proxy envBadRate).clientSends = [] ∧
    (stt_proxy envBadRate).connectAttempted = false ∧
    (stt_proxy envBadRate).upSends = [] :=
  bad_sample_rate_raises envBadRate "cfg" [("sample_rate_hz", JVal.str "abc")]
    (JVal.str "abc") (by decide) rfl (by decide) rfl rfl rfl

/-- Claim C10: when the first receive returns the closed-connection signal
(None), the handler treats it as an empty configuration object rather than
an error: the negotiated configuration is all defaults, the handler
proceeds to open an upstream connection, and (when connect and the
configuration send succeed) no error event is ever sent to the client. -/
theorem closed_first_receive_defaults (env : Env)
    (hk : env.apiKey ≠ "") (hf : env.first = FirstMsg.closed) :
    (stt_proxy env).config
        = some ⟨JVal.arr (env.defHints.map JVal.str), 48000,
            JVal.str env.defModel⟩ ∧
    (stt_proxy env).connectAttempted = true ∧
    (env.connectOk = true → env.cfgSendOk = true →
      (stt_proxy env).clientSends = []) := by
  have hneg : negotiate env.defHints env.defModel (JVal.obj [])
      = some ⟨JVal.arr (env.defHints.map JVal.str), 48000,
          JVal.str env.defModel⟩ := by
    simp [negotiate, negotiatedSampleRate, pyOrJ, List.lookup]
  have hred : stt_proxy env = runSession env (JVal.obj []) := by
    simp [stt_proxy, hk, hf]
  rw [hred]
  simp only [runSession, hneg]
  refine ⟨?_, ?_, ?_⟩
  · by_cases hco : env.connectOk
    · by_cases hcs : env.cfgSendOk
      · rw [if_pos hco, if_pos hcs]
        rfl
      · rw [if_pos hco, if_neg hcs]
        rfl
    · rw [if_neg hco]
      rfl
  · by_cases hco : env.connectOk
    · by_cases hcs : env.cfgSendOk
      · rw [if_pos hco, if_pos hcs]
        rfl
      · rw [if_pos hco, if_neg hcs]
        rfl
    · rw [if_neg hco]
      rfl
  · intro hco hcs
    rw [if_pos hco, if_pos hcs]
    rfl

/-- Witness for C10 at a concrete environment whose first receive is the
closed-connection signal. -/
theorem closed_first_receive_defaults_witness :
    (stt_proxy envEstablished).config
        = some ⟨JVal.arr [JVal.str "en", JVal.str "fr", JVal.str "nl"], 48000,
            JVal.str "soniox-rt"⟩ ∧
    (stt_proxy envEstablished).connectAttempted = true ∧
    (stt_proxy envEstablished).clientSends = [] := by
  have h := closed_first_receive_defaults envEstablished (by decide) rfl
  exact ⟨h.1, h.2.1, h.2.2 rfl rfl⟩

end VoiceAssistant
